import Mathlib

/-!
# Verification of the Babson events scraper (`src/scrapers.py`)

Shallow embedding of the scraping-and-extraction core:

* an HTML node model mirroring the BeautifulSoup document tree
  (`Node`), with the BeautifulSoup operations the code uses:
  `find_all`/`find` with tag + CSS-class filters (pre-order over
  descendants), `get_text(strip=True)`, `next_sibling`, attribute
  lookup, and Python truthiness of tags/strings
  (`bs4.element.Tag.__len__` is the number of children, so an empty
  tag is falsy; a `NavigableString` is a `str`, falsy iff empty);
* `_format_date`, `_extract_event_data`, the pagination loop of
  `scrape_babson_events`, `save_events_to_csv` and `scrape_and_save`;
* a model of the `csv` module's default-dialect writer and reader
  (delimiter `,`, quote char `"`, quote-minimal, quotes doubled,
  line terminator CRLF) for the round-trip property.

Effects are made explicit: fetching is an injected
`Nat → Except ε Node` capability, writing an injected
`String → Except ι Unit` capability, and Python exceptions are
`Except` errors.
-/

namespace BabsonScraper

/-- One node of the parsed HTML tree: either a text node
(`bs4.NavigableString`) or an element (`bs4.Tag`) with a tag name, the
list of CSS classes of its `class` attribute, its other attributes,
and its children in document order. -/
inductive Node : Type where
  | text (s : String) : Node
  | elem (tag : String) (classes : List String)
      (attrs : List (String × String)) (children : List Node) : Node

/-- Python truthiness of a BeautifulSoup node: a `NavigableString` is a
`str`, truthy iff non-empty; a `Tag` has `__len__` = number of children,
so it is truthy iff it has at least one child. -/
def truthy : Node → Bool
  | .text s => !s.isEmpty
  | .elem _ _ _ children => !children.isEmpty

/-- The attributes of a node (`Tag.attrs`; a text node has none). -/
def attrsOf : Node → List (String × String)
  | .text _ => []
  | .elem _ _ attrs _ => attrs

/-- Matcher for `find`/`find_all(tag, class_=cls)`: an element with the
given tag name whose class list contains `cls`. -/
def matchesTC (tag cls : String) : Node → Bool
  | .text _ => false
  | .elem t classes _ _ => t == tag && classes.contains cls

mutual
/-- `node.find_all(...)` with an arbitrary node filter `p`: all
descendants of `node` (the node itself excluded) satisfying `p`, in
pre-order (document order). -/
def findAll (p : Node → Bool) : Node → List Node
  | .text _ => []
  | .elem _ _ _ children => findAllList p children
termination_by structural n => n

/-- `find_all` over a list of sibling nodes, in document order. -/
def findAllList (p : Node → Bool) : List Node → List Node
  | [] => []
  | c :: rest =>
      (if p c then [c] else []) ++ findAll p c ++ findAllList p rest
termination_by structural l => l
end

/-- `node.find(...)`: the first descendant matching, if any. -/
def findFirst (p : Node → Bool) (n : Node) : Option Node :=
  (findAll p n).head?

mutual
/-- `node.find(...)` paired with the found node's `next_sibling`: the
first descendant satisfying `p` in pre-order, together with the node
immediately following it among its parent's children (if any). -/
def findWithSib (p : Node → Bool) : Node → Option (Node × Option Node)
  | .text _ => none
  | .elem _ _ _ children => findWithSibList p children
termination_by structural n => n

/-- `findWithSib` over a list of sibling nodes. -/
def findWithSibList (p : Node → Bool) : List Node → Option (Node × Option Node)
  | [] => none
  | c :: rest =>
      if p c then some (c, rest.head?)
      else
        match findWithSib p c with
        | some r => some r
        | none => findWithSibList p rest
termination_by structural l => l
end

mutual
/-- All text-node strings below a node, in document order
(`Tag._all_strings`). -/
def allStrings : Node → List String
  | .text s => [s]
  | .elem _ _ _ children => allStringsList children
termination_by structural n => n

/-- `allStrings` over a list of sibling nodes. -/
def allStringsList : List Node → List String
  | [] => []
  | c :: rest => allStrings c ++ allStringsList rest
termination_by structural l => l
end

/-- Python `str.strip()` (as bs4 and the scraper use it): remove
leading and trailing whitespace characters. -/
def pyStrip (s : String) : String :=
  String.mk
    (((s.data.dropWhile Char.isWhitespace).reverse.dropWhile
      Char.isWhitespace).reverse)

/-- `node.get_text(strip=True)`: every contained string stripped and
concatenated (the default separator is the empty string, so skipped
whitespace-only strings contribute nothing either way). -/
def getTextStrip (n : Node) : String :=
  String.join ((allStrings n).map pyStrip)

/-- One scraped listing (the dictionary built by `_extract_event_data`,
as a fixed-shape record; all seven fields are strings, absence is the
sentinel `"N/A"`). -/
structure EventRecord : Type where
  title : String
  start_date : String
  end_date : String
  start_time : String
  end_time : String
  location : String
  link : String
deriving DecidableEq, Repr

/-- The dictionary insertion order of `_extract_event_data` (the keys
are assigned in this order in the source). -/
def recordPairs (r : EventRecord) : List (String × String) :=
  [("title", r.title), ("start_date", r.start_date),
   ("end_date", r.end_date), ("start_time", r.start_time),
   ("end_time", r.end_time), ("location", r.location),
   ("link", r.link)]

/-- `month.get_text(strip=True) if month else ''` for the first
`<tag class="cls">` sub-element (`''` also when the element is present
but falsy, i.e. childless). -/
def elemTextOrEmpty (tag cls : String) (n : Node) : String :=
  match findFirst (matchesTC tag cls) n with
  | some m => if truthy m then getTextStrip m else ""
  | none => ""

/-- `_format_date` (src/scrapers.py:152-170): look up the `month`,
`day`, `year` sub-elements of a date stamp, defaulting each missing
part to the empty string, and return `f"{month} {day}, {year}".strip()`. -/
def format_date (date_stamp : Node) : String :=
  let month_str := elemTextOrEmpty "div" "month" date_stamp
  let day_str := elemTextOrEmpty "div" "day" date_stamp
  let year_str := elemTextOrEmpty "div" "year" date_stamp
  pyStrip (month_str ++ " " ++ day_str ++ ", " ++ year_str)

/-- `event.find_all('div', class_='date-stamp')`. -/
def dateStamps (event : Node) : List Node :=
  findAll (matchesTC "div" "date-stamp") event

/-- `event.find_all('span', class_='datelisting')`. -/
def timeListings (event : Node) : List Node :=
  findAll (matchesTC "span" "datelisting") event

/-- The location icon lookup of `_extract_event_data`:
`event.find('span', class_='fa-map-marker')` together with the found
icon's `next_sibling`. -/
def locationIcon (event : Node) : Option (Node × Option Node) :=
  findWithSib (matchesTC "span" "fa-map-marker") event

/-- `event.find('a', class_='find-out-more')`. -/
def linkElem (event : Node) : Option Node :=
  findFirst (matchesTC "a" "find-out-more") event

/-- The location assignment of `_extract_event_data`
(src/scrapers.py:139-143), including its one genuine exception path:
when the map-marker icon and its `next_sibling` are both present and
truthy but the sibling is a `Tag` (not a `NavigableString`),
`location_icon.next_sibling.strip()` raises `AttributeError` (a `Tag`
has no `strip` method); absence in any form gives `"N/A"`. -/
def locationOf (event : Node) : Except String String :=
  match locationIcon event with
  | some (icon, some sib) =>
      if truthy icon && truthy sib then
        match sib with
        | .text s => Except.ok (pyStrip s)
        | .elem _ _ _ _ =>
            Except.error "AttributeError: Tag has no strip method"
      else Except.ok "N/A"
  | _ => Except.ok "N/A"

/-- `_extract_event_data` (src/scrapers.py:98-149), statement by
statement; the location block is the named `locationOf`. -/
def extract_event_data (event : Node) : Except String EventRecord := do
  -- title: `title_elem.get_text(strip=True) if title_elem else 'N/A'`
  let title :=
    match findFirst (matchesTC "p" "title") event with
    | some t => if truthy t then getTextStrip t else "N/A"
    | none => "N/A"
  -- dates: `len == 1`, `len >= 2`, else
  let (start_date, end_date) :=
    match dateStamps event with
    | [d] => (format_date d, format_date d)
    | d1 :: d2 :: _ => (format_date d1, format_date d2)
    | [] => ("N/A", "N/A")
  -- times: `len >= 2`, `len == 1`, else
  let (start_time, end_time) :=
    match timeListings event with
    | t1 :: t2 :: _ => (getTextStrip t1, getTextStrip t2)
    | [t1] => (getTextStrip t1, "N/A")
    | [] => ("N/A", "N/A")
  -- location: `if location_icon and location_icon.next_sibling:
  --              location_icon.next_sibling.strip()`
  let location ← locationOf event
  -- link: `link_elem['href'] if link_elem and 'href' in link_elem.attrs`
  let link :=
    match linkElem event with
    | some a =>
        if truthy a then
          match (attrsOf a).lookup "href" with
          | some v => v
          | none => "N/A"
        else "N/A"
    | none => "N/A"
  return { title, start_date, end_date, start_time, end_time, location, link }

/-! ### Per-field extraction functions

Each restates one assignment block of `_extract_event_data`, so that
the independence of the seven fields can be stated: the record
decomposes into these functions of the entry node (proved below in
`extract_event_data_decomp`). -/

/-- The title assignment of `_extract_event_data` (line 111-112). -/
def titleOf (event : Node) : String :=
  match findFirst (matchesTC "p" "title") event with
  | some t => if truthy t then getTextStrip t else "N/A"
  | none => "N/A"

/-- The `start_date` assignment of `_extract_event_data` (115-124). -/
def startDateOf (event : Node) : String :=
  match dateStamps event with
  | [d] => format_date d
  | d1 :: _ :: _ => format_date d1
  | [] => "N/A"

/-- The `end_date` assignment of `_extract_event_data` (115-124). -/
def endDateOf (event : Node) : String :=
  match dateStamps event with
  | [d] => format_date d
  | _ :: d2 :: _ => format_date d2
  | [] => "N/A"

/-- The `start_time` assignment of `_extract_event_data` (127-136). -/
def startTimeOf (event : Node) : String :=
  match timeListings event with
  | t1 :: _ => getTextStrip t1
  | [] => "N/A"

/-- The `end_time` assignment of `_extract_event_data` (127-136). -/
def endTimeOf (event : Node) : String :=
  match timeListings event with
  | _ :: t2 :: _ => getTextStrip t2
  | _ => "N/A"

/-- The link assignment of `_extract_event_data` (146-147). -/
def linkOf (event : Node) : String :=
  match linkElem event with
  | some a =>
      if truthy a then
        match (attrsOf a).lookup "href" with
        | some v => v
        | none => "N/A"
      else "N/A"
  | none => "N/A"

/-- `_extract_event_data` decomposes into the seven independent
per-field functions; the only failure is the location field's. -/
theorem extract_event_data_decomp (event : Node) :
    extract_event_data event =
      (locationOf event).map fun loc =>
        { title := titleOf event
          start_date := startDateOf event
          end_date := endDateOf event
          start_time := startTimeOf event
          end_time := endTimeOf event
          location := loc
          link := linkOf event } := by
  unfold extract_event_data titleOf startDateOf endDateOf startTimeOf
    endTimeOf linkOf
  cases hl : locationOf event with
  | error e =>
      simp only [bind, Except.bind, Except.map]
  | ok loc =>
      simp only [bind, Except.bind, Except.map, pure, Except.pure]
      rcases dateStamps event with _ | ⟨d1, _ | ⟨d2, ds⟩⟩ <;>
        rcases timeListings event with _ | ⟨t1, _ | ⟨t2, ts⟩⟩ <;> rfl

/-! ### Page-level logic and the pagination loop of
`scrape_babson_events` (src/scrapers.py:50-95) -/

/-- `soup.find_all('li', class_='event-item')` (line 64). -/
def find_events (soup : Node) : List Node :=
  findAll (matchesTC "li" "event-item") soup

/-- Substring test, for `'Page ›' in x`. -/
def strContains (s pat : String) : Bool :=
  s.data.tails.any fun t => pat.data.isPrefixOf t

/-- The next-page control filter of line 81:
`soup.find('a', title=lambda x: x and 'Page ›' in x)` matches an `a`
element whose `title` attribute is present, non-empty and contains
`"Page ›"` (an absent attribute makes the lambda receive `None`). -/
def nextPageAnchor (n : Node) : Bool :=
  match n with
  | .text _ => false
  | .elem t _ attrs _ =>
      t == "a" &&
        match attrs.lookup "title" with
        | some v => !v.isEmpty && strContains v "Page ›"
        | none => false

/-- The continuation check of lines 80-82: the loop goes on to the next
page iff `soup.find('ul', class_='pagination')` yields a truthy tag
which contains a truthy next-page anchor
(`if not pagination or not pagination.find(...): break`). -/
def has_next_page (soup : Node) : Bool :=
  match findFirst (matchesTC "ul" "pagination") soup with
  | none => false
  | some pagination =>
      truthy pagination &&
        match findFirst nextPageAnchor pagination with
        | none => false
        | some a => truthy a

/-- The per-page result of the EventExtractor: the event-entry nodes
found, and whether the loop continues past this page (it does iff
entries were found and a next-page control is present; with zero
entries the page is treated as the end of the listing, lines 64-82). -/
def extract_page (soup : Node) : List Node × Bool :=
  let events := find_events soup
  (events, if events.isEmpty then false else has_next_page soup)

/-- The outcome of a run of `scrape_babson_events`. -/
inductive ScrapeOutcome (ε : Type) : Type where
  /-- The loop broke cleanly and returned `all_events`. -/
  | ok (records : List EventRecord) : ScrapeOutcome ε
  /-- `requests.get`/`raise_for_status` failed on `page`: the message
  `"Error fetching page {page}"` is printed and the underlying
  exception `cause` re-raised (lines 87-90). -/
  | fetchFail (page : Nat) (cause : ε) : ScrapeOutcome ε
  /-- `_extract_event_data` raised on `page` (uncaught, propagates). -/
  | extractFail (page : Nat) (cause : String) : ScrapeOutcome ε
  /-- Artifact of the fuelled embedding of `while True`. -/
  | outOfFuel : ScrapeOutcome ε
deriving DecidableEq

/-- The `while True` loop of `scrape_babson_events` (lines 50-90), with
page fetching + parsing abstracted as `fetch` and recursion fuelled.
Returns the outcome together with the list of page numbers fetched, in
request order.  One iteration: fetch (on failure re-raise), find the
event items (none ⇒ break with the accumulated records), extract and
append each record, then break unless a next-page control is present;
otherwise sleep and continue with `page + 1`. -/
def scrapeLoop (fetch : Nat → Except ε Node) :
    Nat → Nat → List EventRecord → ScrapeOutcome ε × List Nat
  | 0, _, _ => (.outOfFuel, [])
  | fuel + 1, page, acc =>
      match fetch page with
      | .error e => (.fetchFail page e, [page])
      | .ok soup =>
          let events := find_events soup
          if events.isEmpty then (.ok acc, [page])
          else
            match events.mapM extract_event_data with
            | .error m => (.extractFail page m, [page])
            | .ok recs =>
                if has_next_page soup then
                  let r := scrapeLoop fetch fuel (page + 1) (acc ++ recs)
                  (r.1, page :: r.2)
                else (.ok (acc ++ recs), [page])

/-- `scrape_babson_events` (page starts at 1, `all_events` empty). -/
def scrape_babson_events (fetch : Nat → Except ε Node) (fuel : Nat) :
    ScrapeOutcome ε × List Nat :=
  scrapeLoop fetch fuel 1 []

/-! ### CSV writing (`save_events_to_csv`, src/scrapers.py:173-205)

The `csv` module's default dialect: delimiter `,`, quote char `"`,
`QUOTE_MINIMAL` (a field is quoted iff it contains the delimiter, the
quote char, or a line-terminator character), quotes escaped by
doubling, rows terminated by CRLF.  `DictWriter` writes the header row
and then each record's values in `fieldnames` order. -/

/-- The `fieldnames` list of `save_events_to_csv` (lines 191-192). -/
def fieldnames : List String :=
  ["title", "start_date", "end_date", "start_time",
   "end_time", "location", "link"]

/-- A record's values in `fieldnames` order (what `DictWriter.writerow`
emits for the row). -/
def toRow (r : EventRecord) : List String :=
  [r.title, r.start_date, r.end_date, r.start_time,
   r.end_time, r.location, r.link]

/-- `QUOTE_MINIMAL`: quote iff the field contains `,`, `"`, CR or LF. -/
def needsQuote (s : String) : Bool :=
  s.data.any fun c => c == ',' || c == '"' || c == '\r' || c == '\n'

/-- Escape by doubling each quote char. -/
def escChars : List Char → List Char
  | [] => []
  | c :: cs => if c == '"' then '"' :: '"' :: escChars cs else c :: escChars cs

/-- One encoded field of the csv writer. -/
def encodeField (s : String) : List Char :=
  if needsQuote s then '"' :: escChars s.data ++ ['"'] else s.data

/-- One encoded row: fields joined by the delimiter, then CRLF. -/
def encodeRow : List String → List Char
  | [] => ['\r', '\n']
  | [f] => encodeField f ++ ['\r', '\n']
  | f :: fs => encodeField f ++ ',' :: encodeRow fs

/-- The text `save_events_to_csv` writes: the header row from
`writer.writeheader()` followed by one row per record from
`writer.writerows(events)`. -/
def csvContent (events : List EventRecord) : String :=
  String.mk (encodeRow fieldnames ++ (events.map toRow).flatMap encodeRow)

/-- `save_events_to_csv` (lines 187-205), the destination abstracted as
a `writeFile` capability.  An empty collection prints
`"Warning: No events to save."` and returns `False` without touching
the destination; otherwise the csv content is written, an `IOError` is
printed and re-raised (the `Except.error`), and success returns
`True`. -/
def save_events_to_csv (writeFile : String → Except ι Unit)
    (events : List EventRecord) : Except ι Bool :=
  if events.isEmpty then .ok false
  else
    match writeFile (csvContent events) with
    | .error e => .error e
    | .ok _ => .ok true

/-- `scrape_and_save` (lines 208-221): scrape, then save.  The third
component records the call to `save_events_to_csv`: it is `none` when
the scrape raised, in which case the save step is never reached and
nothing is written. -/
def scrape_and_save (fetch : Nat → Except ε Node)
    (writeFile : String → Except ι Unit) (fuel : Nat) :
    ScrapeOutcome ε × List Nat × Option (Except ι Bool) :=
  match scrape_babson_events fetch fuel with
  | (.ok recs, tr) => (.ok recs, tr, some (save_events_to_csv writeFile recs))
  | (out, tr) => (out, tr, none)

/-! ### A model of `csv.reader` (default dialect), for the round-trip
property: rows are separated by CRLF, fields by `,`; a field starting
with `"` is quoted, inside it `""` is a literal quote and a single `"`
closes the field; all other characters are literal. -/

mutual
/-- Reading at the start of a row; empty input yields no further rows. -/
def csvRowsFrom : List Char → List (List String)
  | [] => []
  | c :: cs => csvInField (c :: cs) [] []
termination_by cs => (cs.length, 1)

/-- Reading inside an unquoted field: `field` is the field so far,
`row` the completed fields of the current row. -/
def csvInField : List Char → List Char → List String → List (List String)
  | [], field, row => [row ++ [String.mk field]]
  | ',' :: cs, field, row => csvInField cs [] (row ++ [String.mk field])
  | '\r' :: '\n' :: cs, field, row =>
      (row ++ [String.mk field]) :: csvRowsFrom cs
  | '"' :: cs, field, row => csvInQuotes cs field row
  | c :: cs, field, row => csvInField cs (field ++ [c]) row
termination_by cs _ _ => (cs.length, 0)

/-- Reading inside a quoted field: `""` is a literal quote, a single
`"` returns to unquoted reading, anything else (delimiters and line
breaks included) is literal. -/
def csvInQuotes : List Char → List Char → List String → List (List String)
  | [], field, row => [row ++ [String.mk field]]
  | '"' :: '"' :: cs, field, row => csvInQuotes cs (field ++ ['"']) row
  | '"' :: cs, field, row => csvInField cs field row
  | c :: cs, field, row => csvInQuotes cs (field ++ [c]) row
termination_by cs _ _ => (cs.length, 0)
end

/-- Decode a csv text into its rows of fields. -/
def decodeCsv (s : String) : List (List String) :=
  csvRowsFrom s.data

/-! ### Round-trip lemmas for the csv model -/

theorem csvInField_comma (cs : List Char) (field : List Char) (row : List String) :
    csvInField (',' :: cs) field row = csvInField cs [] (row ++ [String.mk field]) := by
  simp [csvInField]

theorem csvInField_crlf (cs : List Char) (field : List Char) (row : List String) :
    csvInField ('\r' :: '\n' :: cs) field row
      = (row ++ [String.mk field]) :: csvRowsFrom cs := by
  simp [csvInField]

theorem csvInField_lit (c : Char) (cs : List Char) (field : List Char) (row : List String)
    (h1 : c ≠ ',') (h2 : c ≠ '"') (h3 : c ≠ '\r') :
    csvInField (c :: cs) field row = csvInField cs (field ++ [c]) row := by
  rw [csvInField.eq_def]
  split
  · simp_all
  · simp_all
  · simp_all
  · simp_all
  · rename_i c' cs' _ _ h
    simp_all

theorem csvInQuotes_close (cs : List Char) (field : List Char) (row : List String)
    (h : cs.head? ≠ some '"') :
    csvInQuotes ('"' :: cs) field row = csvInField cs field row := by
  rw [csvInQuotes.eq_def]
  split
  · simp_all
  · rename_i cs' _ _ heq
    rw [List.cons.injEq] at heq
    simp_all
  · rename_i cs' _ heq
    injection heq with h1 h2
    subst h2
    rfl
  · rename_i hne heq
    injection heq with h1 h2
    exact absurd h1.symm hne

/-- Rebuilding a string from its characters is the identity. -/
theorem mk_data (s : String) : String.mk s.data = s := rfl

theorem csvInField_nil (field : List Char) (row : List String) :
    csvInField [] field row = [row ++ [String.mk field]] := by
  simp [csvInField]

theorem csvInField_quote (cs : List Char) (field : List Char) (row : List String) :
    csvInField ('"' :: cs) field row = csvInQuotes cs field row := by
  simp [csvInField]

theorem csvInQuotes_dquote (cs : List Char) (field : List Char) (row : List String) :
    csvInQuotes ('"' :: '"' :: cs) field row = csvInQuotes cs (field ++ ['"']) row := by
  simp [csvInQuotes]

theorem csvInQuotes_lit (c : Char) (cs : List Char) (field : List Char) (row : List String)
    (hc : c ≠ '"') :
    csvInQuotes (c :: cs) field row = csvInQuotes cs (field ++ [c]) row := by
  rw [csvInQuotes.eq_def]
  split
  · simp_all
  · rename_i cs' _ _ heq
    rw [List.cons.injEq] at heq
    simp_all
  · rename_i cs' _ heq
    injection heq with h1 h2
    exact absurd h1 hc
  · rename_i hne heq
    injection heq with h1 h2
    subst h1; subst h2
    rfl

theorem csvRowsFrom_ne_nil (cs : List Char) (h : cs ≠ []) :
    csvRowsFrom cs = csvInField cs [] [] := by
  cases cs with
  | nil => exact absurd rfl h
  | cons c cs' => simp [csvRowsFrom]

theorem csvInField_safe (s : List Char) (rest : List Char) (field : List Char)
    (row : List String)
    (hs : ∀ c ∈ s, c ≠ ',' ∧ c ≠ '"' ∧ c ≠ '\r') :
    csvInField (s ++ rest) field row = csvInField rest (field ++ s) row := by
  induction s generalizing field with
  | nil => simp
  | cons c cs ih =>
      obtain ⟨h1, h2, h3⟩ := hs c (by simp)
      rw [List.cons_append, csvInField_lit c _ _ _ h1 h2 h3,
        ih _ fun c' hc' => hs c' (by simp [hc'])]
      simp

theorem csvInQuotes_esc (s : List Char) (rest : List Char) (field : List Char)
    (row : List String) (hrest : rest.head? ≠ some '"') :
    csvInQuotes (escChars s ++ '"' :: rest) field row
      = csvInField rest (field ++ s) row := by
  induction s generalizing field with
  | nil => simpa using csvInQuotes_close rest field row hrest
  | cons c cs ih =>
      by_cases hc : c = '"'
      · subst hc
        rw [show escChars ('"' :: cs) = '"' :: '"' :: escChars cs from by
              simp [escChars],
          List.cons_append, List.cons_append, csvInQuotes_dquote, ih]
        simp
      · rw [show escChars (c :: cs) = c :: escChars cs from by
              simp [escChars, hc],
          List.cons_append, csvInQuotes_lit c _ _ _ hc, ih]
        simp

theorem csvInField_encodeField (s : String) (rest : List Char) (row : List String)
    (hrest : rest.head? ≠ some '"') :
    csvInField (encodeField s ++ rest) [] row = csvInField rest s.data row := by
  unfold encodeField
  by_cases hq : needsQuote s = true
  · rw [if_pos hq,
      show ('"' :: escChars s.data ++ ['"']) ++ rest
          = '"' :: (escChars s.data ++ '"' :: rest) from by simp,
      csvInField_quote]
    simpa using csvInQuotes_esc s.data rest [] row hrest
  · rw [if_neg hq]
    rw [Bool.not_eq_true] at hq
    have hs : ∀ c ∈ s.data, c ≠ ',' ∧ c ≠ '"' ∧ c ≠ '\r' := by
      intro c hc
      have h := List.any_eq_false.mp hq c hc
      simp only [Bool.or_eq_true, not_or, beq_iff_eq] at h
      exact ⟨h.1.1.1, h.1.1.2, h.1.2⟩
    simpa using csvInField_safe s.data rest [] row hs

theorem csvInField_encodeRow (fields : List String) (rest : List Char)
    (row : List String) (hf : fields ≠ []) :
    csvInField (encodeRow fields ++ rest) [] row
      = (row ++ fields) :: csvRowsFrom rest := by
  induction fields generalizing row with
  | nil => exact absurd rfl hf
  | cons f fs ih =>
      cases fs with
      | nil =>
          rw [show encodeRow [f] = encodeField f ++ ['\r', '\n'] from rfl,
            List.append_assoc, csvInField_encodeField f _ row (by simp),
            show (['\r', '\n'] : List Char) ++ rest = '\r' :: '\n' :: rest from rfl,
            csvInField_crlf]
      | cons f2 fs2 =>
          rw [show encodeRow (f :: f2 :: fs2)
                = encodeField f ++ ',' :: encodeRow (f2 :: fs2) from rfl,
            List.append_assoc, csvInField_encodeField f _ row (by simp),
            show (',' :: encodeRow (f2 :: fs2)) ++ rest
                = ',' :: (encodeRow (f2 :: fs2) ++ rest) from rfl,
            csvInField_comma, ih _ (by simp)]
          simp [mk_data]

theorem encodeRow_ne_nil (fields : List String) : encodeRow fields ≠ [] := by
  match fields with
  | [] => simp [encodeRow]
  | [f] => simp [encodeRow]
  | f :: f2 :: fs => simp [encodeRow]

theorem csvRowsFrom_flatMap (rows : List (List String))
    (h : ∀ r ∈ rows, r ≠ []) :
    csvRowsFrom (rows.flatMap encodeRow) = rows := by
  induction rows with
  | nil => simp [csvRowsFrom]
  | cons r rs ih =>
      rw [List.flatMap_cons,
        csvRowsFrom_ne_nil _
          (List.append_ne_nil_of_left_ne_nil (encodeRow_ne_nil r) _),
        csvInField_encodeRow r _ [] (h r (by simp))]
      simp [ih fun x hx => h x (by simp [hx])]


/-- The fields of a successfully extracted record are the per-field
functions of the entry node. -/
theorem extract_ok_fields (event : Node) (r : EventRecord)
    (h : extract_event_data event = .ok r) :
    r.title = titleOf event ∧ r.start_date = startDateOf event ∧
    r.end_date = endDateOf event ∧ r.start_time = startTimeOf event ∧
    r.end_time = endTimeOf event ∧ locationOf event = .ok r.location ∧
    r.link = linkOf event := by
  have hd := extract_event_data_decomp event
  rw [h] at hd
  cases hl : locationOf event with
  | error e => rw [hl] at hd; simp [Except.map] at hd
  | ok loc =>
      rw [hl] at hd
      simp only [Except.map] at hd
      injection hd with hd
      subst hd
      exact ⟨rfl, rfl, rfl, rfl, rfl, rfl, rfl⟩

/-- The csv encode/decode round trip: decoding the written text
recovers the header row and each record row verbatim. -/
theorem decodeCsv_csvContent (events : List EventRecord) :
    decodeCsv (csvContent events) = fieldnames :: events.map toRow := by
  unfold decodeCsv csvContent
  rw [show (String.mk (encodeRow fieldnames
        ++ (events.map toRow).flatMap encodeRow)).data
      = (fieldnames :: events.map toRow).flatMap encodeRow from by
    simp [List.flatMap_cons]]
  refine csvRowsFrom_flatMap _ ?_
  intro r hr
  rcases List.mem_cons.mp hr with h | h
  · subst h
    simp [fieldnames]
  · obtain ⟨x, _, hxr⟩ := List.mem_map.mp h
    rw [← hxr]
    simp [toRow]

/-- A run that ends in `fetchFail n e` fetched exactly the consecutive
pages from the starting page through `n`, and `fetch` indeed failed on
`n` with cause `e`. -/
theorem scrapeLoop_fetchFail (fetch : Nat → Except ε Node) :
    ∀ (fuel page : Nat) (acc : List EventRecord) (n : Nat) (e : ε)
      (tr : List Nat),
      scrapeLoop fetch fuel page acc = (.fetchFail n e, tr) →
      fetch n = .error e ∧ page ≤ n ∧
        tr = List.range' page (n - page + 1) := by
  intro fuel
  induction fuel with
  | zero =>
      intro page acc n e tr h
      simp [scrapeLoop] at h
  | succ fuel ih =>
      intro page acc n e tr h
      cases hf : fetch page with
      | error e' =>
          simp only [scrapeLoop, hf, Prod.mk.injEq,
            ScrapeOutcome.fetchFail.injEq] at h
          obtain ⟨⟨hp, he⟩, htr⟩ := h
          subst hp; subst he; subst htr
          exact ⟨hf, le_refl _, by simp [List.range']⟩
      | ok soup =>
          simp only [scrapeLoop, hf] at h
          by_cases hev : (find_events soup).isEmpty = true
          · rw [if_pos hev] at h
            simp at h
          · rw [if_neg hev] at h
            cases hm : (find_events soup).mapM extract_event_data with
            | error m =>
                simp only [hm] at h
                simp at h
            | ok recs =>
                simp only [hm] at h
                by_cases hn : has_next_page soup = true
                · rw [if_pos hn] at h
                  rcases hrec : scrapeLoop fetch fuel (page + 1) (acc ++ recs)
                    with ⟨out, tr'⟩
                  rw [hrec] at h
                  simp only [Prod.mk.injEq] at h
                  obtain ⟨hout, htr⟩ := h
                  obtain ⟨h1, h2, h3⟩ :=
                    ih (page + 1) (acc ++ recs) n e tr'
                      (by rw [hrec, hout])
                  refine ⟨h1, by omega, ?_⟩
                  rw [← htr, h3,
                    show n - page + 1 = (n - (page + 1) + 1) + 1 by omega,
                    List.range'_succ, List.range'_succ, List.range'_succ]
                · rw [if_neg hn] at h
                  simp at h

/-! ## The claims -/

/-- C1: For every event-entry node, the record produced by extraction
has exactly the seven fields `title`, `start_date`, `end_date`,
`start_time`, `end_time`, `location`, `link`, each populated with a
string (the sentinel "N/A" when the corresponding markup is absent),
never omitted and never null. -/
theorem c1_seven_string_fields (event : Node) (r : EventRecord)
    (h : extract_event_data event = .ok r) :
    (recordPairs r).map Prod.fst = fieldnames ∧
    (recordPairs r).length = 7 ∧
    (findFirst (matchesTC "p" "title") event = none → r.title = "N/A") ∧
    (dateStamps event = [] →
      r.start_date = "N/A" ∧ r.end_date = "N/A") ∧
    (timeListings event = [] →
      r.start_time = "N/A" ∧ r.end_time = "N/A") ∧
    (locationIcon event = none → r.location = "N/A") ∧
    (linkElem event = none → r.link = "N/A") := by
  obtain ⟨ht, hsd, hed, hst, het, hloc, hlink⟩ := extract_ok_fields event r h
  refine ⟨by simp [recordPairs, fieldnames], by simp [recordPairs],
    ?_, ?_, ?_, ?_, ?_⟩
  · intro hnone
    rw [ht, titleOf, hnone]
  · intro hnone
    rw [hsd, hed, startDateOf, endDateOf, hnone]
    exact ⟨rfl, rfl⟩
  · intro hnone
    rw [hst, het, startTimeOf, endTimeOf, hnone]
    exact ⟨rfl, rfl⟩
  · intro hnone
    rw [locationOf, hnone] at hloc
    injection hloc with hloc
    exact hloc.symm
  · intro hnone
    rw [hlink, linkOf, hnone]

/-- Witness for C1 at a concrete entry node with none of the seven
sub-elements present. -/
theorem c1_seven_string_fields_witness :
    (extract_event_data (Node.elem "li" ["event-item"] [] [.text "hi"]) =
      .ok ⟨"N/A", "N/A", "N/A", "N/A", "N/A", "N/A", "N/A"⟩) ∧
    (recordPairs ⟨"N/A", "N/A", "N/A", "N/A", "N/A", "N/A", "N/A"⟩).map
      Prod.fst = fieldnames :=
  ⟨rfl,
    (c1_seven_string_fields (Node.elem "li" ["event-item"] [] [.text "hi"])
      ⟨"N/A", "N/A", "N/A", "N/A", "N/A", "N/A", "N/A"⟩ rfl).1⟩

/-- C2: For every event-entry node, date extraction formats each
date-stamp as `"{month} {day}, {year}"` (trimmed), and depends on the
number of date-stamp sub-elements: zero date-stamps give
`start_date = end_date = "N/A"`; exactly one gives
`start_date = end_date =` that formatted date; two or more give
`start_date =` the first formatted date and `end_date =` the second,
with any beyond the second ignored. -/
theorem c2_date_extraction (event : Node) (r : EventRecord)
    (h : extract_event_data event = .ok r) :
    (∀ d, format_date d =
      pyStrip (elemTextOrEmpty "div" "month" d ++ " " ++
        elemTextOrEmpty "div" "day" d ++ ", " ++
        elemTextOrEmpty "div" "year" d)) ∧
    (dateStamps event = [] →
      r.start_date = "N/A" ∧ r.end_date = "N/A") ∧
    (∀ d, dateStamps event = [d] →
      r.start_date = format_date d ∧ r.end_date = format_date d) ∧
    (∀ d1 d2 rest, dateStamps event = d1 :: d2 :: rest →
      r.start_date = format_date d1 ∧ r.end_date = format_date d2) := by
  obtain ⟨_, hsd, hed, _, _, _, _⟩ := extract_ok_fields event r h
  refine ⟨fun d => rfl, ?_, ?_, ?_⟩
  · intro hds
    rw [hsd, hed, startDateOf, endDateOf, hds]
    exact ⟨rfl, rfl⟩
  · intro d hds
    rw [hsd, hed, startDateOf, endDateOf, hds]
    exact ⟨rfl, rfl⟩
  · intro d1 d2 rest hds
    rw [hsd, hed, startDateOf, endDateOf, hds]
    cases rest <;> exact ⟨rfl, rfl⟩

/-- The single date stamp of the C2 witness: November 15, 2025. -/
def c2Stamp : Node :=
  .elem "div" ["date-stamp"] []
    [.elem "div" ["month"] [] [.text "Nov"],
     .elem "div" ["day"] [] [.text "15"],
     .elem "div" ["year"] [] [.text "2025"]]

/-- The C2 witness entry: one date stamp. -/
def c2Event : Node := .elem "li" ["event-item"] [] [c2Stamp]

/-- Witness for C2: the single-date-stamp entry gets
`start_date = end_date = "Nov 15, 2025"`. -/
theorem c2_date_extraction_witness :
    (extract_event_data c2Event =
      .ok ⟨"N/A", "Nov 15, 2025", "Nov 15, 2025",
           "N/A", "N/A", "N/A", "N/A"⟩) ∧
    dateStamps c2Event = [c2Stamp] ∧
    format_date c2Stamp = "Nov 15, 2025" ∧
    ((⟨"N/A", "Nov 15, 2025", "Nov 15, 2025", "N/A", "N/A", "N/A", "N/A"⟩ :
        EventRecord).start_date = format_date c2Stamp ∧
      (⟨"N/A", "Nov 15, 2025", "Nov 15, 2025", "N/A", "N/A", "N/A", "N/A"⟩ :
        EventRecord).end_date = format_date c2Stamp) :=
  ⟨rfl, rfl, rfl,
    (c2_date_extraction c2Event
      ⟨"N/A", "Nov 15, 2025", "Nov 15, 2025", "N/A", "N/A", "N/A", "N/A"⟩
      rfl).2.2.1 c2Stamp rfl⟩

/-- C3: For every event-entry node, time extraction over the
`datelisting` sub-elements in document order yields: zero sub-elements
→ `("N/A", "N/A")`; exactly one with text `t` → `(t, "N/A")`; two or
more with first two texts `t1, t2` → `(t1, t2)`, with any further
sub-elements ignored. -/
theorem c3_time_extraction (event : Node) (r : EventRecord)
    (h : extract_event_data event = .ok r) :
    (timeListings event = [] →
      r.start_time = "N/A" ∧ r.end_time = "N/A") ∧
    (∀ t, timeListings event = [t] →
      r.start_time = getTextStrip t ∧ r.end_time = "N/A") ∧
    (∀ t1 t2 rest, timeListings event = t1 :: t2 :: rest →
      r.start_time = getTextStrip t1 ∧ r.end_time = getTextStrip t2) := by
  obtain ⟨_, _, _, hst, het, _, _⟩ := extract_ok_fields event r h
  refine ⟨?_, ?_, ?_⟩
  · intro hts
    rw [hst, het, startTimeOf, endTimeOf, hts]
    exact ⟨rfl, rfl⟩
  · intro t hts
    rw [hst, het, startTimeOf, endTimeOf, hts]
    exact ⟨rfl, rfl⟩
  · intro t1 t2 rest hts
    rw [hst, het, startTimeOf, endTimeOf, hts]
    cases rest <;> exact ⟨rfl, rfl⟩

/-- The C3 witness entry: two time listings, 10:00am and 11:00am. -/
def c3Event : Node :=
  .elem "li" ["event-item"] []
    [.elem "span" ["datelisting"] [] [.text "10:00am"],
     .elem "span" ["datelisting"] [] [.text "11:00am"]]

/-- Witness for C3: the two-listing entry gets
`(start_time, end_time) = ("10:00am", "11:00am")`. -/
theorem c3_time_extraction_witness :
    (extract_event_data c3Event =
      .ok ⟨"N/A", "N/A", "N/A", "10:00am", "11:00am", "N/A", "N/A"⟩) ∧
    ((⟨"N/A", "N/A", "N/A", "10:00am", "11:00am", "N/A", "N/A"⟩ :
        EventRecord).start_time =
          getTextStrip (.elem "span" ["datelisting"] [] [.text "10:00am"]) ∧
      (⟨"N/A", "N/A", "N/A", "10:00am", "11:00am", "N/A", "N/A"⟩ :
        EventRecord).end_time =
          getTextStrip (.elem "span" ["datelisting"] [] [.text "11:00am"])) :=
  ⟨rfl,
    (c3_time_extraction c3Event
      ⟨"N/A", "N/A", "N/A", "10:00am", "11:00am", "N/A", "N/A"⟩ rfl).2.2
      (.elem "span" ["datelisting"] [] [.text "10:00am"])
      (.elem "span" ["datelisting"] [] [.text "11:00am"]) [] rfl⟩

/-- The C4 counterexample date stamp: month and year present, the
`day` sub-element missing. -/
def c4Stamp : Node :=
  .elem "div" ["date-stamp"] []
    [.elem "div" ["month"] [] [.text "Nov"],
     .elem "div" ["year"] [] [.text "2025"]]

/-- The C4 counterexample entry. -/
def c4Event : Node := .elem "li" ["event-item"] [] [c4Stamp]

/-- Counterexample to C4 as stated: the `day` sub-element of the
(present) date stamp is missing, yet `start_date` is the partial
formatted string `"Nov , 2025"`, not the sentinel `"N/A"` —
`_format_date` defaults a missing part to the empty string instead. -/
theorem c4_counterexample :
    findAll (matchesTC "div" "day") c4Stamp = [] ∧
    dateStamps c4Event = [c4Stamp] ∧
    extract_event_data c4Event =
      .ok ⟨"N/A", "Nov , 2025", "Nov , 2025", "N/A", "N/A", "N/A", "N/A"⟩ ∧
    "Nov , 2025" ≠ "N/A" :=
  ⟨rfl, rfl, rfl, by decide⟩

/-- C4 (amended): for every event-entry node, a missing title element,
an empty date-stamp list, an empty datelisting list, a missing
map-marker icon or missing following sibling, and a missing
find-out-more anchor or missing URL attribute each yield `"N/A"` for
the corresponding field; a missing `month`/`day`/`year` part within a
present date stamp instead yields the formatted date with that part
replaced by the empty string (not `"N/A"`); and each of the seven
fields depends only on its own sub-element lookup, so the other six
fields are unaffected. -/
theorem c4_missing_subelements :
    (∀ event r, extract_event_data event = .ok r →
      (findFirst (matchesTC "p" "title") event = none → r.title = "N/A") ∧
      (dateStamps event = [] →
        r.start_date = "N/A" ∧ r.end_date = "N/A") ∧
      (timeListings event = [] →
        r.start_time = "N/A" ∧ r.end_time = "N/A") ∧
      ((timeListings event).length ≤ 1 → r.end_time = "N/A") ∧
      (locationIcon event = none → r.location = "N/A") ∧
      (∀ icon, locationIcon event = some (icon, none) →
        r.location = "N/A") ∧
      (linkElem event = none → r.link = "N/A") ∧
      (∀ a, linkElem event = some a → (attrsOf a).lookup "href" = none →
        r.link = "N/A") ∧
      (∀ d, findFirst (matchesTC "div" "month") d = none →
        format_date d =
          pyStrip ("" ++ " " ++ elemTextOrEmpty "div" "day" d ++ ", " ++
            elemTextOrEmpty "div" "year" d))) ∧
    (∀ e1 e2 r1 r2,
      extract_event_data e1 = .ok r1 → extract_event_data e2 = .ok r2 →
      (findFirst (matchesTC "p" "title") e1 =
          findFirst (matchesTC "p" "title") e2 → r1.title = r2.title) ∧
      (dateStamps e1 = dateStamps e2 →
        r1.start_date = r2.start_date ∧ r1.end_date = r2.end_date) ∧
      (timeListings e1 = timeListings e2 →
        r1.start_time = r2.start_time ∧ r1.end_time = r2.end_time) ∧
      (locationIcon e1 = locationIcon e2 → r1.location = r2.location) ∧
      (linkElem e1 = linkElem e2 → r1.link = r2.link)) := by
  constructor
  · intro event r h
    obtain ⟨ht, hsd, hed, hst, het, hloc, hlink⟩ := extract_ok_fields event r h
    refine ⟨?_, ?_, ?_, ?_, ?_, ?_, ?_, ?_, ?_⟩
    · intro hnone
      rw [ht, titleOf, hnone]
    · intro hnone
      rw [hsd, hed, startDateOf, endDateOf, hnone]
      exact ⟨rfl, rfl⟩
    · intro hnone
      rw [hst, het, startTimeOf, endTimeOf, hnone]
      exact ⟨rfl, rfl⟩
    · intro hlen
      rw [het, endTimeOf]
      rcases hts : timeListings event with _ | ⟨t1, _ | ⟨t2, ts⟩⟩
      · rfl
      · rfl
      · rw [hts] at hlen
        simp at hlen
    · intro hnone
      rw [locationOf, hnone] at hloc
      injection hloc with hloc
      exact hloc.symm
    · intro icon hicon
      rw [locationOf, hicon] at hloc
      injection hloc with hloc
      exact hloc.symm
    · intro hnone
      rw [hlink, linkOf, hnone]
    · intro a ha hhref
      rw [hlink, linkOf, ha]
      simp only [hhref]
      cases truthy a <;> rfl
    · intro d hnone
      rw [format_date, elemTextOrEmpty, hnone]
  · intro e1 e2 r1 r2 h1 h2
    obtain ⟨ht1, hsd1, hed1, hst1, het1, hloc1, hlink1⟩ :=
      extract_ok_fields e1 r1 h1
    obtain ⟨ht2, hsd2, hed2, hst2, het2, hloc2, hlink2⟩ :=
      extract_ok_fields e2 r2 h2
    refine ⟨?_, ?_, ?_, ?_, ?_⟩
    · intro heq
      rw [ht1, ht2, titleOf, titleOf, heq]
    · intro heq
      rw [hsd1, hsd2, hed1, hed2, startDateOf, startDateOf,
        endDateOf, endDateOf, heq]
      exact ⟨rfl, rfl⟩
    · intro heq
      rw [hst1, hst2, het1, het2, startTimeOf, startTimeOf,
        endTimeOf, endTimeOf, heq]
      exact ⟨rfl, rfl⟩
    · intro heq
      rw [locationOf, heq, ← locationOf] at hloc1
      rw [hloc1] at hloc2
      injection hloc2
    · intro heq
      rw [hlink1, hlink2, linkOf, linkOf, heq]

/-- Witness for the amended C4 at concrete inputs: an entry missing
everything gets `"N/A"` title, and two entries agreeing on their
date-stamp lists extract equal dates. -/
theorem c4_missing_subelements_witness :
    ((⟨"N/A", "N/A", "N/A", "N/A", "N/A", "N/A", "N/A"⟩ :
        EventRecord).title = "N/A") ∧
    ((⟨"x", "N/A", "N/A", "N/A", "N/A", "N/A", "N/A"⟩ :
        EventRecord).start_date =
      (⟨"N/A", "N/A", "N/A", "N/A", "N/A", "N/A", "N/A"⟩ :
        EventRecord).start_date) :=
  ⟨((c4_missing_subelements.1 (Node.elem "li" ["event-item"] [] [])
      ⟨"N/A", "N/A", "N/A", "N/A", "N/A", "N/A", "N/A"⟩ rfl).1 rfl),
    ((c4_missing_subelements.2
      (Node.elem "li" ["event-item"] [] [.elem "p" ["title"] [] [.text "x"]])
      (Node.elem "li" ["event-item"] [] [])
      ⟨"x", "N/A", "N/A", "N/A", "N/A", "N/A", "N/A"⟩
      ⟨"N/A", "N/A", "N/A", "N/A", "N/A", "N/A", "N/A"⟩
      rfl rfl).2.1 rfl).1⟩

/-- C5: For every page whose parsed document contains zero event-entry
(`event-item`) nodes, extraction returns an empty record sequence
together with the "no more pages" signal, and the orchestration loop
stops without appending anything for that page (and without fetching
any further page). -/
theorem c5_empty_page_stops (fetch : Nat → Except ε Node)
    (fuel page : Nat) (acc : List EventRecord) (soup : Node)
    (hf : fetch page = .ok soup) (he : find_events soup = []) :
    extract_page soup = ([], false) ∧
    scrapeLoop fetch (fuel + 1) page acc = (.ok acc, [page]) := by
  constructor
  · rw [extract_page, he]
    rfl
  · simp only [scrapeLoop, hf, he]
    rfl

/-- Witness for C5: a page with no event items ends the run with the
accumulator unchanged and only that page fetched. -/
theorem c5_empty_page_stops_witness :
    ((fun _ => Except.ok (Node.elem "html" [] [] []) :
        Nat → Except String Node) 1 = .ok (Node.elem "html" [] [] [])) ∧
    find_events (Node.elem "html" [] [] []) = [] ∧
    (extract_page (Node.elem "html" [] [] []) = ([], false) ∧
      scrapeLoop
        (fun _ => Except.ok (Node.elem "html" [] [] []) :
          Nat → Except String Node) 1 1 [] = (.ok [], [1])) :=
  ⟨rfl, rfl,
    c5_empty_page_stops
      (fun _ => Except.ok (Node.elem "html" [] [] [])) 0 1 []
      (Node.elem "html" [] [] []) rfl rfl⟩

/-- A C6 fixture event entry with the given title. -/
def c6Entry (name : String) : Node :=
  .elem "li" ["event-item"] [] [.elem "p" ["title"] [] [.text name]]

/-- C6 fixture page 1: three entries and a next-page control. -/
def c6Page1 : Node :=
  .elem "html" [] []
    [c6Entry "Event A", c6Entry "Event B", c6Entry "Event C",
     .elem "ul" ["pagination"] []
       [.elem "a" [] [("title", "Next Page ›")] [.text "›"]]]

/-- C6 fixture page 2: one entry, no next-page control. -/
def c6Page2 : Node := .elem "html" [] [] [c6Entry "Event D"]

/-- C6 fixture page 3: no entries. -/
def c6Page3 : Node := .elem "html" [] [] []

/-- The C6 fixture fetcher. -/
def c6Fetch : Nat → Except String Node := fun n =>
  if n == 1 then .ok c6Page1
  else if n == 2 then .ok c6Page2
  else if n == 3 then .ok c6Page3
  else .error "no such page"

/-- The record extracted from a C6 fixture entry. -/
def c6Rec (name : String) : EventRecord :=
  ⟨name, "N/A", "N/A", "N/A", "N/A", "N/A", "N/A"⟩

/-- C6: On the fixture where page 1 has 3 entries and a next-page
control, page 2 has 1 entry and no next-page control, and page 3 has
no entries, the orchestration loop fetches exactly pages 1 and 2
(never page 3) and ends with the 4 records in encounter order. -/
theorem c6_two_page_fixture :
    (find_events c6Page1).length = 3 ∧ has_next_page c6Page1 = true ∧
    (find_events c6Page2).length = 1 ∧ has_next_page c6Page2 = false ∧
    find_events c6Page3 = [] ∧
    scrape_babson_events c6Fetch 10 =
      (.ok [c6Rec "Event A", c6Rec "Event B", c6Rec "Event C",
            c6Rec "Event D"], [1, 2]) :=
  ⟨rfl, rfl, rfl, rfl, rfl, rfl⟩

/-- The C9 counterexample date stamp: day and year present, the
`month` sub-element missing. -/
def c9Stamp : Node :=
  .elem "div" ["date-stamp"] []
    [.elem "div" ["day"] [] [.text "15"],
     .elem "div" ["year"] [] [.text "2025"]]

/-- The C9 counterexample entry. -/
def c9Event : Node := .elem "li" ["event-item"] [] [c9Stamp]

/-- Counterexample to C9 as stated: with the `month` part of a present
date stamp missing, extraction succeeds (no exception) but the date
field is the partial string `"15, 2025"`, not the `"N/A"` sentinel the
claim asserts for every such absence. -/
theorem c9_counterexample :
    findAll (matchesTC "div" "month") c9Stamp = [] ∧
    extract_event_data c9Event =
      .ok ⟨"N/A", "15, 2025", "15, 2025", "N/A", "N/A", "N/A", "N/A"⟩ ∧
    "15, 2025" ≠ "N/A" :=
  ⟨rfl, rfl, by decide⟩

/-- C9 (amended): per-record extraction never fails because of a
missing sub-element: the only failure path requires a map-marker icon
to be present and truthy with a present, truthy `Tag` (element)
following sibling, whose `.strip()` raises `AttributeError`.  In
particular a record with no map-marker icon always extracts
successfully; absences degrade to `"N/A"` except for missing
month/day/year parts within a present date stamp, which yield the
partial formatted date instead. -/
theorem c9_absence_never_raises :
    (∀ event m, extract_event_data event = .error m →
      ∃ icon t cls attrs ch,
        locationIcon event = some (icon, some (.elem t cls attrs ch)) ∧
        truthy icon = true ∧ truthy (Node.elem t cls attrs ch) = true) ∧
    (∀ event, locationIcon event = none →
      ∃ r, extract_event_data event = .ok r) := by
  constructor
  · intro event m h
    rw [extract_event_data_decomp event] at h
    cases hl : locationOf event with
    | ok loc =>
        rw [hl] at h
        simp [Except.map] at h
    | error e =>
        rw [locationOf] at hl
        rcases hic : locationIcon event with _ | ⟨icon, _ | sib⟩
        · simp only [hic] at hl
          exact Except.noConfusion hl
        · simp only [hic] at hl
          exact Except.noConfusion hl
        · simp only [hic] at hl
          by_cases htru : (truthy icon && truthy sib) = true
          · rw [if_pos htru] at hl
            cases sib with
            | text str => simp at hl
            | elem t cls attrs ch =>
                refine ⟨icon, t, cls, attrs, ch, rfl, ?_, ?_⟩
                · exact (Bool.and_eq_true _ _ ▸ htru).1
                · exact (Bool.and_eq_true _ _ ▸ htru).2
          · rw [if_neg htru] at hl
            simp at hl
  · intro event hic
    rw [extract_event_data_decomp event, locationOf, hic]
    exact ⟨_, rfl⟩

/-- The C9 witness entry: a truthy map-marker icon whose following
sibling is a truthy element, the one input shape on which
`_extract_event_data` raises. -/
def c9RaisingEvent : Node :=
  .elem "li" ["event-item"] []
    [.elem "span" ["fa-map-marker"] [] [.text "*"],
     .elem "b" [] [] [.text "Olin Hall"]]

/-- Witness for the amended C9: the raising input indeed has the
present icon and element sibling the theorem requires, and an entry
without an icon extracts successfully. -/
theorem c9_absence_never_raises_witness :
    (extract_event_data c9RaisingEvent =
      .error "AttributeError: Tag has no strip method") ∧
    (∃ icon t cls attrs ch,
      locationIcon c9RaisingEvent = some (icon, some (.elem t cls attrs ch)) ∧
      truthy icon = true ∧ truthy (Node.elem t cls attrs ch) = true) ∧
    (∃ r, extract_event_data (Node.elem "li" ["event-item"] [] []) = .ok r) :=
  ⟨rfl,
    c9_absence_never_raises.1 c9RaisingEvent
      "AttributeError: Tag has no strip method" rfl,
    c9_absence_never_raises.2 (Node.elem "li" ["event-item"] [] []) rfl⟩

/-- C7: For every run in which fetching some page `n` fails, the run
surfaces a failure carrying the page number `n` and the underlying
transport/status cause, the pages fetched are exactly `1, …, n` each
once (no retry of any fetch), and the save step is never reached, so
no output file is written. -/
theorem c7_fetch_failure_aborts (fetch : Nat → Except ε Node)
    (writeFile : String → Except ι Unit) (fuel n : Nat) (e : ε)
    (tr : List Nat)
    (h : scrape_babson_events fetch fuel = (.fetchFail n e, tr)) :
    fetch n = .error e ∧ tr = List.range' 1 n ∧ tr.Nodup ∧
    (scrape_and_save fetch writeFile fuel).2.2 = none := by
  obtain ⟨hf, hle, htr⟩ := scrapeLoop_fetchFail fetch fuel 1 [] n e tr h
  have hrange : tr = List.range' 1 n := by
    rw [htr]
    congr 1
    omega
  refine ⟨hf, hrange, ?_, ?_⟩
  · rw [hrange]
    exact List.nodup_range' _ _
  · rw [scrape_and_save, h]

/-- Witness for C7: a fetcher that fails on page 1 with cause
`"connection refused"`. -/
theorem c7_fetch_failure_aborts_witness :
    (scrape_babson_events
        (fun _ => Except.error "connection refused" : Nat → Except String Node)
        3 = (.fetchFail 1 "connection refused", [1])) ∧
    ((fun _ => Except.error "connection refused" : Nat → Except String Node) 1 =
        .error "connection refused" ∧
      ([1] : List Nat) = List.range' 1 1 ∧ ([1] : List Nat).Nodup ∧
      (scrape_and_save
        (fun _ => Except.error "connection refused" : Nat → Except String Node)
        (fun _ => Except.ok () : String → Except String Unit) 3).2.2 = none) :=
  ⟨rfl,
    c7_fetch_failure_aborts
      (fun _ => Except.error "connection refused")
      (fun _ => Except.ok ()) 3 1 "connection refused" [1] rfl⟩

/-- C8: When the result writer is given an empty collection, the call
does not raise and is flagged to the caller as a no-op (warning print
plus `False` return); when given a non-empty collection and the
destination cannot be opened or written, it fails with the underlying
I/O cause. -/
theorem c8_writer_empty_and_failure (ι : Type) :
    (∀ writeFile : String → Except ι Unit,
      save_events_to_csv writeFile ([] : List EventRecord) = .ok false) ∧
    (∀ (writeFile : String → Except ι Unit) (events : List EventRecord)
        (e : ι), events ≠ [] →
      writeFile (csvContent events) = .error e →
      save_events_to_csv writeFile events = .error e) := by
  constructor
  · intro writeFile
    rfl
  · intro writeFile events e hne hw
    rw [save_events_to_csv, if_neg (by simpa [List.isEmpty_iff] using hne), hw]

/-- Witness for C8: the empty collection returns the no-op flag and a
failing destination propagates its cause on a one-record collection. -/
theorem c8_writer_empty_and_failure_witness :
    (save_events_to_csv
        (fun _ => Except.error "disk full" : String → Except String Unit)
        ([] : List EventRecord) = .ok false) ∧
    ([(⟨"t", "sd", "ed", "st", "et", "loc", "l"⟩ : EventRecord)] ≠
        ([] : List EventRecord) ∧
      save_events_to_csv
        (fun _ => Except.error "disk full" : String → Except String Unit)
        [⟨"t", "sd", "ed", "st", "et", "loc", "l"⟩] = .error "disk full") :=
  ⟨(c8_writer_empty_and_failure String).1 (fun _ => Except.error "disk full"),
    by simp,
    (c8_writer_empty_and_failure String).2 (fun _ => Except.error "disk full")
      [⟨"t", "sd", "ed", "st", "et", "loc", "l"⟩] "disk full"
      (by simp) rfl⟩

/-- C10: For every non-empty list of records, writing them with the
result writer succeeds (when the destination accepts the text) and
re-reading the produced delimited output yields the header row
followed by exactly the records' seven field values verbatim,
embedded delimiters and quotes included. -/
theorem c10_csv_roundtrip (writeFile : String → Except ι Unit)
    (events : List EventRecord) (hne : events ≠ [])
    (hw : writeFile (csvContent events) = .ok ()) :
    save_events_to_csv writeFile events = .ok true ∧
    decodeCsv (csvContent events) = fieldnames :: events.map toRow ∧
    ∀ r ∈ events, toRow r =
      [r.title, r.start_date, r.end_date, r.start_time, r.end_time,
       r.location, r.link] := by
  refine ⟨?_, decodeCsv_csvContent events, fun r _ => rfl⟩
  rw [save_events_to_csv, if_neg (by simpa [List.isEmpty_iff] using hne), hw]

/-- The C10 witness record, with an embedded delimiter, embedded
quotes, and an embedded CRLF. -/
def c10Rec : EventRecord :=
  ⟨"Gala, with \"scare quotes\"", "Nov 15, 2025", "Nov 16, 2025",
   "10:00am", "1:00pm", "Olin Hall\r\nRoom 2", "https://x.test/e?a=1,2"⟩

/-- Witness for C10 on a record whose fields contain commas, quotes
and a line break. -/
theorem c10_csv_roundtrip_witness :
    ([c10Rec] ≠ ([] : List EventRecord)) ∧
    (save_events_to_csv (fun _ => Except.ok () : String → Except String Unit)
        [c10Rec] = .ok true ∧
      decodeCsv (csvContent [c10Rec]) = fieldnames :: [c10Rec].map toRow) :=
  ⟨by simp,
    (c10_csv_roundtrip
      (fun _ => Except.ok () : String → Except String Unit) [c10Rec]
      (by simp) rfl).1,
    (c10_csv_roundtrip
      (fun _ => Except.ok () : String → Except String Unit) [c10Rec]
      (by simp) rfl).2.1⟩

end BabsonScraper
